import Mathlib

/-!
Verification development for the Excel-File-Analyzer repository
(src/ScrapBot.py). The core of the program is the class ExcelChatbot:
a table store holding one pandas DataFrame (self.df), a translator
(query_data_with_ai) that sends a question to an external completion
service and strips fenced-code markers from the reply, and an executor
(execute_query) that evaluates the generated expression text with
eval under a globals dict carrying only an empty builtins table and a
locals dict of exactly two bindings, df and pd.

The embedding below models the Python string operations used by the
source (str.strip, str.split on a newline, str.join, str.startswith)
as structurally recursive functions on lists of characters, so every
definition evaluates by kernel reduction. External library behaviour
(the Groq service call, pandas.read_excel, the parse phase of eval)
is modelled as explicit inputs or result values, as noted at each
definition.
-/

/-- Model of the ASCII whitespace test used by Python str.strip for the
inputs that occur here (space, tab, newline, carriage return). -/
def pyIsSpace (c : Char) : Bool :=
  c = ' ' || c = '\t' || c = '\n' || c = '\r'

/-- Drop leading whitespace characters. -/
def dropLeadingWs : List Char → List Char
  | [] => []
  | c :: cs => if pyIsSpace c then dropLeadingWs cs else c :: cs

/-- Model of Python str.strip(): remove leading and trailing whitespace. -/
def pyStrip (s : String) : String :=
  String.mk ((dropLeadingWs (dropLeadingWs s.data.reverse).reverse))

/-- Split a character list at each newline character, modelling
Python str.split applied with a one character separator: the result
is always nonempty and splitting the empty text yields one empty piece. -/
def splitNl : List Char → List (List Char)
  | [] => [[]]
  | c :: cs =>
    if c = '\n' then [] :: splitNl cs
    else
      match splitNl cs with
      | [] => [[c]]
      | l :: ls => (c :: l) :: ls

/-- Model of Python text.split with a newline separator, as a list of lines. -/
def pySplitNl (s : String) : List String :=
  (splitNl s.data).map String.mk

/-- Model of Python sep.join(pieces). -/
def pyJoin (sep : String) : List String → String
  | [] => ""
  | [x] => x
  | x :: y :: xs => x ++ sep ++ pyJoin sep (y :: xs)

/-- List version of a starts-with test, structurally recursive. -/
def listStarts : List Char → List Char → Bool
  | [], _ => true
  | _ :: _, [] => false
  | p :: ps, c :: cs => p = c && listStarts ps cs

/-- Model of Python s.startswith(marker). -/
def pyStartsWith (s marker : String) : Bool :=
  listStarts marker.data s.data

/-- Model of Python s.endswith(marker). -/
def pyEndsWith (s marker : String) : Bool :=
  listStarts marker.data.reverse s.data.reverse

/-- The decimal digit character for a residue below ten. -/
def decDigit (k : Nat) : Char :=
  if k = 0 then '0' else if k = 1 then '1' else if k = 2 then '2'
  else if k = 3 then '3' else if k = 4 then '4' else if k = 5 then '5'
  else if k = 6 then '6' else if k = 7 then '7' else if k = 8 then '8'
  else '9'

/-- Decimal digits of a positive number, most significant first, with a
fuel argument for structural recursion (any fuel at least the number
itself is enough). -/
def decCharsAux (fuel n : Nat) : List Char :=
  match fuel, n with
  | 0, _ => []
  | _ + 1, 0 => []
  | fuel + 1, n + 1 =>
    decCharsAux fuel ((n + 1) / 10) ++ [decDigit ((n + 1) % 10)]

/-- The decimal rendering of a number as characters. -/
def decChars (n : Nat) : List Char :=
  match n with
  | 0 => ['0']
  | n + 1 => decCharsAux (n + 1) (n + 1)

/-- Model of the Python rendering str(n) of a nonnegative int, as
interpolated by an f-string. -/
def natToDec (n : Nat) : String :=
  String.mk (decChars n)

/-- The numeric value of a digit character. -/
def digitVal (c : Char) : Nat :=
  c.toNat - 48

/-- The number a digit string denotes, reading left to right. -/
def ofDec (l : List Char) : Nat :=
  l.foldl (fun a c => 10 * a + digitVal c) 0

/-- A completion-service outcome, modelling the try block around
self.client.chat.completions.create in query_data_with_ai: either the
first completion text (response.choices[0].message.content) or the
text rendering str(e) of the raised exception. -/
def ServiceOutcome := Except String String

/-- Model of ExcelChatbot.query_data_with_ai (src/ScrapBot.py lines 82 to 95)
after the service call has been resolved to an outcome: on success the
completion text is stripped of surrounding whitespace and, when it starts
with a triple backtick, its first and last lines are removed; any service
exception e is caught and converted to the text
"Error generating query: " followed by str(e). -/
def query_data_with_ai (outcome : ServiceOutcome) : String :=
  match outcome with
  | Except.error e => "Error generating query: " ++ e
  | Except.ok content =>
    let generated_code := pyStrip content
    if pyStartsWith generated_code "```" then
      pyJoin "\n" (((pySplitNl generated_code).drop 1).dropLast)
    else
      generated_code


/-- A scalar cell value of the loaded table: string, integer, boolean or
null, following the data model of the spec (floating point cells are out
of scope of the claims). -/
inductive Scalar where
  | null
  | b (v : Bool)
  | i (v : Int)
  | s (v : String)
deriving DecidableEq, Repr

/-- The Dataset held by the table store: the pandas DataFrame self.df,
reduced to its ordered column names and its ordered rows, each row one
scalar per column. -/
structure Dataset where
  columns : List String
  rows : List (List Scalar)
deriving DecidableEq, Repr

/-- Row count of a dataset, the value of len(df). -/
def Dataset.numRows (d : Dataset) : Nat := d.rows.length

/-- Column count of a dataset, the value of len(df.columns). -/
def Dataset.numCols (d : Dataset) : Nat := d.columns.length

/-- The mutable fields of ExcelChatbot relevant to the claims:
self.df (None until a load succeeds) and self.excel_file_path
(the constructor default is None). The api_key and client fields only
configure the external service and are modelled at the service boundary. -/
structure BotState where
  df : Option Dataset
  excel_file_path : Option String
deriving DecidableEq, Repr

/-- The constructor state ExcelChatbot(None): no DataFrame, no path. -/
def initState : BotState := { df := none, excel_file_path := none }

/-- Outcome of one call to pandas.read_excel: the parsed dataset, or the
text of the exception it raised (missing file, unreadable file, missing
sheet). pandas is an external library, so the behaviour of a given file
system is passed in as a function of the path and of the optional
sheet argument. -/
def ReadExcel := String → Option String → Except String Dataset

/-- The read performed inside the try block of ExcelChatbot.load_data
(src/ScrapBot.py lines 34 to 38): Python truthiness of the sheet_name
argument means None and the empty string both select the
pandas.read_excel call without an explicit sheet. -/
def readResult (fs : ReadExcel) (file_path : String) (sheet_name : Option String) :
    Except String Dataset :=
  match sheet_name with
  | some s => if s = "" then fs file_path none else fs file_path (some s)
  | none => fs file_path none

/-- Model of ExcelChatbot.load_data (src/ScrapBot.py lines 32 to 43).
On success self.df and self.excel_file_path are both replaced and True
is returned; the except branch catches the read exception, displays it,
and returns False leaving both fields untouched. -/
def load_data (fs : ReadExcel) (file_path : String) (sheet_name : Option String)
    (st : BotState) : Bool × BotState :=
  match readResult fs file_path sheet_name with
  | Except.ok d => (true, { df := some d, excel_file_path := some file_path })
  | Except.error _ => (false, st)

/-- Rendering of one scalar cell as text. -/
def Scalar.render : Scalar → String
  | Scalar.null => "NaN"
  | Scalar.b true => "True"
  | Scalar.b false => "False"
  | Scalar.i v => toString v
  | Scalar.s v => v

/-- Model of self.df.head(3).to_string(): a deterministic text rendering
of the header and the first three rows. The exact pandas layout is
external library behaviour; the claims depend only on this text being a
function of the dataset. -/
def headToString (d : Dataset) : String :=
  pyJoin "\n"
    (pyJoin " " d.columns ::
      (d.rows.take 3).map (fun r => pyJoin " " (r.map Scalar.render)))

/-- Model of ExcelChatbot.get_data_summary (src/ScrapBot.py lines 54 to 68):
the sentinel text when self.df is None, otherwise the f-string with the
row count, the column count, the comma-joined column names and the first
three rows, with the indentation of the source layout. -/
def get_data_summary (st : BotState) : String :=
  match st.df with
  | none => "No data loaded"
  | some d =>
      "\n        Dataset Summary:\n        - Total rows: " ++ natToDec d.numRows
        ++ "\n        - Total columns: " ++ natToDec d.numCols
        ++ "\n        - Columns: " ++ pyJoin ", " d.columns
        ++ "\n        \n        Sample data (first 3 rows):\n        "
        ++ headToString d ++ "\n        "

/-- The shape of the summary text as a function of the reported row
count, the reported column count, the column names and the sample
rendering, for stating that the reported counts determine and are
determined by the text. -/
def summaryTemplate (r c : Nat) (cols : List String) (sample : String) : String :=
  "\n        Dataset Summary:\n        - Total rows: " ++ natToDec r
    ++ "\n        - Total columns: " ++ natToDec c
    ++ "\n        - Columns: " ++ pyJoin ", " cols
    ++ "\n        \n        Sample data (first 3 rows):\n        "
    ++ sample ++ "\n        "


/-- A Python value that can arise while evaluating the generated
expressions the claims exercise: the None object, booleans, integers,
strings, sequences of scalars (tuples, and the series a DataFrame
column yields), the DataFrame bound to df, the pandas module object
bound to pd, and the empty dict object that eval receives as the
builtins table of its globals. -/
inductive PyVal where
  | none
  | bool (v : Bool)
  | int (v : Int)
  | str (v : String)
  | tuple (vs : List Scalar)
  | dataFrame (d : Dataset)
  | pdModule
  | emptyDict
deriving DecidableEq, Repr

/-- The Python value of a scalar cell. -/
def Scalar.toPy : Scalar → PyVal
  | Scalar.null => PyVal.none
  | Scalar.b v => PyVal.bool v
  | Scalar.i v => PyVal.int v
  | Scalar.s v => PyVal.str v

/-- Abstract syntax of a parsed Python expression, covering the shapes
the claims exercise: a name, a literal, attribute access, subscripting
and a one-argument call. Python evaluates every subterm of these forms
(none of them short-circuits). -/
inductive Expr where
  | name (s : String)
  | intLit (v : Int)
  | strLit (v : String)
  | attr (e : Expr) (field : String)
  | subscript (e : Expr) (ix : Expr)
  | call (f : Expr) (arg : Expr)
deriving DecidableEq, Repr

/-- The free names an expression mentions. -/
def Expr.freeNames : Expr → List String
  | Expr.name s => [s]
  | Expr.intLit _ => []
  | Expr.strLit _ => []
  | Expr.attr e _ => e.freeNames
  | Expr.subscript e ix => e.freeNames ++ ix.freeNames
  | Expr.call f arg => f.freeNames ++ arg.freeNames

/-- An evaluation namespace: ordered name-to-value bindings. -/
abbrev Env := List (String × PyVal)

/-- Name lookup in a namespace. -/
def lookupName (env : Env) (s : String) : Option PyVal :=
  match env with
  | [] => Option.none
  | (k, v) :: rest => if k = s then some v else lookupName rest s

/-- Model of the evaluation performed by eval(code, ..., safe_dict) on a
parsed expression. Names resolve only through the given namespace (the
globals dict carries an empty builtins table, so no ambient built-in
name resolves); a DataFrame answers the shape attribute with the pair
(row count, column count) and subscripting by a column name with that
column; integer subscripts index tuples. Every failure is the message
text of the exception Python raises; operations outside the modelled
surface fail with the corresponding exception text as well. -/
def evalExpr : Expr → Env → Except String PyVal
  | Expr.name s, env =>
    match lookupName env s with
    | some v => Except.ok v
    | Option.none => Except.error ("name " ++ s ++ " is not defined")
  | Expr.intLit v, _ => Except.ok (PyVal.int v)
  | Expr.strLit v, _ => Except.ok (PyVal.str v)
  | Expr.attr e field, env =>
    match evalExpr e env with
    | Except.error m => Except.error m
    | Except.ok (PyVal.dataFrame d) =>
      if field = "shape" then
        Except.ok (PyVal.tuple [Scalar.i d.numRows, Scalar.i d.numCols])
      else
        Except.error ("DataFrame object has no attribute " ++ field)
    | Except.ok _ => Except.error ("object has no attribute " ++ field)
  | Expr.subscript e ix, env =>
    match evalExpr e env with
    | Except.error m => Except.error m
    | Except.ok v =>
      match evalExpr ix env with
      | Except.error m => Except.error m
      | Except.ok (PyVal.int i) =>
        match v with
        | PyVal.tuple vs =>
          if h : i.toNat < vs.length then
            if 0 ≤ i then Except.ok (vs.get ⟨i.toNat, h⟩).toPy
            else Except.error "tuple index out of range"
          else Except.error "tuple index out of range"
        | PyVal.emptyDict => Except.error ("KeyError: " ++ toString i)
        | _ => Except.error "object is not subscriptable"
      | Except.ok (PyVal.str c) =>
        match v with
        | PyVal.dataFrame d =>
          match d.columns.indexOf? c with
          | some j =>
            Except.ok (PyVal.tuple (d.rows.map (fun r => r.getD j Scalar.null)))

          | Option.none => Except.error ("KeyError: " ++ c)
        | PyVal.emptyDict => Except.error ("KeyError: " ++ c)
        | _ => Except.error "object is not subscriptable"
      | Except.ok _ => Except.error "invalid index type"
  | Expr.call f arg, env =>
    match evalExpr f env with
    | Except.error m => Except.error m
    | Except.ok _ =>
      match evalExpr arg env with
      | Except.error m => Except.error m
      | Except.ok _ => Except.error "object is not callable"

/-- The argument handed to execute_query: eval first parses the text of
the generated expression, so the input is either a parsed expression or
a text that fails the parse, which makes eval raise a SyntaxError whose
message is carried here. -/
inductive PyCode where
  | expr (e : Expr)
  | invalid (msg : String)
deriving DecidableEq, Repr

/-- Evaluation of a code argument: a text that fails to parse raises its
SyntaxError; a parsed expression is evaluated in the namespace. -/
def evalCode : PyCode → Env → Except String PyVal
  | PyCode.invalid m, _ => Except.error m
  | PyCode.expr e, env => evalExpr e env

/-- The locals dict execute_query builds: safe_dict with exactly the two
bindings df (the current DataFrame, the None object when no data is
loaded) and pd (the pandas module). -/
def safe_dict (st : BotState) : Env :=
  [("df", match st.df with
          | some d => PyVal.dataFrame d
          | Option.none => PyVal.none),
   ("pd", PyVal.pdModule)]

/-- The globals dict passed to eval at src/ScrapBot.py line 104: the one
entry binding the name of the builtins table to an empty dict, which is
what disables every ambient built-in function. -/
def eval_globals : Env :=
  [("__builtins__", PyVal.emptyDict)]

/-- The full name-resolution namespace of the eval call: Python resolves
a free name in the locals dict first and then in the globals dict, so
exactly the names df, pd and the builtins-table name resolve. -/
def eval_env (st : BotState) : Env :=
  safe_dict st ++ eval_globals

/-- The value execute_query returns: the evaluated result, or the
error text built in the except branch. -/
inductive QueryResult where
  | value (v : PyVal)
  | errorText (s : String)
deriving DecidableEq, Repr

/-- Model of ExcelChatbot.execute_query (src/ScrapBot.py lines 97 to 107):
evaluate the code with the globals dict carrying only the empty builtins
table and the locals dict safe_dict; any exception e is caught and
converted to the text "Error executing query: " followed by str(e). -/
def execute_query (code : PyCode) (st : BotState) : QueryResult :=
  match evalCode code (eval_env st) with
  | Except.ok result => QueryResult.value result
  | Except.error e => QueryResult.errorText ("Error executing query: " ++ e)

/-- The expression df.shape[0], a well-formed read expression computing
the row count in the restricted namespace. -/
def rowCountExpr : Expr :=
  Expr.subscript (Expr.attr (Expr.name "df") "shape") (Expr.intLit 0)

/-- A concrete five-row, three-column dataset with columns A, B and C,
matching the end-to-end scenario of the spec. -/
def sampleData : Dataset :=
  { columns := ["A", "B", "C"],
    rows := [[Scalar.i 1, Scalar.s "x", Scalar.b true],
             [Scalar.i 2, Scalar.s "y", Scalar.b false],
             [Scalar.i 3, Scalar.s "z", Scalar.null],
             [Scalar.i 4, Scalar.s "w", Scalar.b true],
             [Scalar.i 5, Scalar.s "v", Scalar.b false]] }

/-- A state in which the sample dataset has been loaded. -/
def loadedState : BotState := { df := some sampleData, excel_file_path := some "data.xlsx" }


/-- Written from the words of the specification, for comparison with the
code: the spec says a fence is a first line beginning with a
triple-backtick-like marker and a last line ending with one, that
exactly the first and last lines are stripped only when both fence
lines appear, and that otherwise the text is returned unchanged. -/
def stripFencesSpec (content : String) : String :=
  let lines := pySplitNl content
  let firstFence :=
    match lines.head? with
    | some l => pyStartsWith l "```"
    | Option.none => false
  let lastFence :=
    match lines.getLast? with
    | some l => pyEndsWith l "```"
    | Option.none => false
  if firstFence && lastFence then pyJoin "\n" ((lines.drop 1).dropLast)
  else content

/-- A file system on which every read raises, as for a nonexistent or
unreadable path. -/
def missingFile : ReadExcel :=
  fun _ _ => Except.error "No such file or directory"


theorem strDataAppend (a b : String) : (a ++ b).data = a.data ++ b.data := rfl

theorem strDataMk (l : List Char) : (String.mk l).data = l := rfl

theorem splitNl_of_no_newline (l : List Char) (h : ∀ c ∈ l, c ≠ '\n') :
    splitNl l = [l] := by
  induction l with
  | nil => rfl
  | cons c cs ih =>
    have hc : ¬(c = '\n') := h c (List.mem_cons_self c cs)
    have hrest := ih (fun x hx => h x (List.mem_cons_of_mem _ hx))
    simp [splitNl, hc, hrest]

theorem evalExpr_error_of_unbound (e : Expr) :
    ∀ (env : Env) (s : String), s ∈ e.freeNames →
      lookupName env s = Option.none → ∃ m, evalExpr e env = Except.error m := by
  induction e with
  | name t =>
    intro env s hmem hun
    have : s = t := by simpa [Expr.freeNames] using hmem
    subst this
    exact ⟨"name " ++ s ++ " is not defined", by simp [evalExpr, hun]⟩
  | intLit v => intro env s hmem _; simp [Expr.freeNames] at hmem
  | strLit v => intro env s hmem _; simp [Expr.freeNames] at hmem
  | attr e field ih =>
    intro env s hmem hun
    obtain ⟨m, hm⟩ := ih env s (by simpa [Expr.freeNames] using hmem) hun
    exact ⟨m, by simp [evalExpr, hm]⟩
  | subscript e ix ihe ihix =>
    intro env s hmem hun
    rcases List.mem_append.mp (by simpa [Expr.freeNames] using hmem) with hm1 | hm2
    · obtain ⟨m, hm⟩ := ihe env s hm1 hun
      exact ⟨m, by simp [evalExpr, hm]⟩
    · obtain ⟨m, hm⟩ := ihix env s hm2 hun
      cases hE : evalExpr e env with
      | error m2 => exact ⟨m2, by simp [evalExpr, hE]⟩
      | ok v => exact ⟨m, by simp [evalExpr, hE, hm]⟩
  | call f arg ihf iharg =>
    intro env s hmem hun
    rcases List.mem_append.mp (by simpa [Expr.freeNames] using hmem) with hm1 | hm2
    · obtain ⟨m, hm⟩ := ihf env s hm1 hun
      exact ⟨m, by simp [evalExpr, hm]⟩
    · obtain ⟨m, hm⟩ := iharg env s hm2 hun
      cases hE : evalExpr f env with
      | error m2 => exact ⟨m2, by simp [evalExpr, hE]⟩
      | ok v => exact ⟨m, by simp [evalExpr, hE, hm]⟩

theorem decDigit_ne_nl (k : Nat) : decDigit k ≠ '\n' := by
  unfold decDigit
  repeat' split
  all_goals decide

theorem digitVal_decDigit (k : Nat) (h : k < 10) : digitVal (decDigit k) = k := by
  interval_cases k <;> decide

theorem decCharsAux_no_nl (fuel : Nat) :
    ∀ (n : Nat), ∀ c ∈ decCharsAux fuel n, c ≠ '\n' := by
  induction fuel with
  | zero => intro n c hc; simp [decCharsAux] at hc
  | succ fuel ih =>
    intro n c hc
    cases n with
    | zero => simp [decCharsAux] at hc
    | succ n =>
      rw [decCharsAux] at hc
      rcases List.mem_append.mp hc with h1 | h1
      · exact ih _ c h1
      · have : c = decDigit ((n + 1) % 10) := by simpa using h1
        rw [this]
        exact decDigit_ne_nl _

theorem decChars_no_nl (n : Nat) : ∀ c ∈ decChars n, c ≠ '\n' := by
  cases n with
  | zero =>
    intro c hc
    have : c = '0' := by simpa [decChars] using hc
    rw [this]; decide
  | succ n =>
    intro c hc
    exact decCharsAux_no_nl (n + 1) (n + 1) c (by simpa [decChars] using hc)

theorem ofDec_decCharsAux : ∀ (fuel n : Nat), n ≤ fuel →
    ofDec (decCharsAux fuel n) = n := by
  intro fuel
  induction fuel with
  | zero =>
    intro n hn
    have : n = 0 := Nat.le_zero.mp hn
    subst this
    rfl
  | succ fuel ih =>
    intro n hn
    cases n with
    | zero => rfl
    | succ n =>
      have hlt : (n + 1) / 10 < n + 1 := Nat.div_lt_self (Nat.succ_pos n) (by norm_num)
      have hle : (n + 1) / 10 ≤ fuel := by omega
      have hmod : (n + 1) % 10 < 10 := Nat.mod_lt _ (by norm_num)
      calc ofDec (decCharsAux (fuel + 1) (n + 1))
          = ofDec (decCharsAux fuel ((n + 1) / 10) ++ [decDigit ((n + 1) % 10)]) := by
            rw [decCharsAux]
        _ = 10 * ofDec (decCharsAux fuel ((n + 1) / 10))
              + digitVal (decDigit ((n + 1) % 10)) := by
            simp [ofDec, List.foldl_append]
        _ = 10 * ((n + 1) / 10) + (n + 1) % 10 := by
            rw [ih _ hle, digitVal_decDigit _ hmod]
        _ = n + 1 := Nat.div_add_mod (n + 1) 10

theorem ofDec_decChars (n : Nat) : ofDec (decChars n) = n := by
  cases n with
  | zero => rfl
  | succ n => exact ofDec_decCharsAux (n + 1) (n + 1) le_rfl

theorem decChars_inj {m n : Nat} (h : decChars m = decChars n) : m = n := by
  have := congrArg ofDec h
  rwa [ofDec_decChars, ofDec_decChars] at this

theorem append_nl_cancel : ∀ (xs ys as bs : List Char),
    (∀ c ∈ xs, c ≠ '\n') → (∀ c ∈ ys, c ≠ '\n') →
    xs ++ '\n' :: as = ys ++ '\n' :: bs → xs = ys ∧ as = bs := by
  intro xs
  induction xs with
  | nil =>
    intro ys as bs _ hy h
    cases ys with
    | nil => simpa using h
    | cons y ys =>
      exfalso
      simp only [List.nil_append, List.cons_append] at h
      injection h with h1 _
      exact hy y (List.mem_cons_self _ _) h1.symm
  | cons x xs ih =>
    intro ys as bs hx hy h
    cases ys with
    | nil =>
      exfalso
      simp only [List.nil_append, List.cons_append] at h
      injection h with h1 _
      exact hx x (List.mem_cons_self _ _) h1
    | cons y ys =>
      simp only [List.cons_append] at h
      injection h with h1 h2
      obtain ⟨hxy, hab⟩ := ih ys as bs (fun c hc => hx c (List.mem_cons_of_mem _ hc))
        (fun c hc => hy c (List.mem_cons_of_mem _ hc)) h2
      exact ⟨by rw [h1, hxy], hab⟩

set_option maxRecDepth 8000 in
theorem summaryTemplate_data (r c : Nat) (cols : List String) (sample : String) :
    (summaryTemplate r c cols sample).data
      = "\n        Dataset Summary:\n        - Total rows: ".data
        ++ (decChars r
        ++ ('\n' :: ("        - Total columns: ".data
        ++ (decChars c
        ++ ('\n' :: ("        - Columns: ".data
        ++ ((pyJoin ", " cols).data
        ++ ("\n        \n        Sample data (first 3 rows):\n        ".data
        ++ (sample.data
        ++ "\n        ".data))))))))) := by
  simp only [summaryTemplate, strDataAppend, strDataMk, natToDec, List.append_assoc]
  rfl

theorem summaryTemplate_counts_inj {r c r2 c2 : Nat} {cols cols2 : List String}
    {sample sample2 : String}
    (h : summaryTemplate r c cols sample = summaryTemplate r2 c2 cols2 sample2) :
    r = r2 ∧ c = c2 := by
  have hd := congrArg String.data h
  rw [summaryTemplate_data, summaryTemplate_data] at hd
  have h1 := List.append_cancel_left hd
  obtain ⟨hr, h2⟩ := append_nl_cancel _ _ _ _ (decChars_no_nl r) (decChars_no_nl r2) h1
  have h3 := List.append_cancel_left h2
  obtain ⟨hc, _⟩ := append_nl_cancel _ _ _ _ (decChars_no_nl c) (decChars_no_nl c2) h3
  exact ⟨decChars_inj hr, decChars_inj hc⟩

/-- Claim C1: for every code argument and every dataset state, the
executor either returns the evaluated value or returns an error text of
the form built in the except branch, and every evaluation error (the
SyntaxError of the parse phase, an undefined name, or a runtime
exception of the evaluation) is converted to that error text; the
function is total, so execution never raises past this boundary. -/
theorem execute_query_catches_all (code : PyCode) (st : BotState) :
    ((∃ v, execute_query code st = QueryResult.value v) ∨
      (∃ m, execute_query code st = QueryResult.errorText ("Error executing query: " ++ m))) ∧
    ∀ m, evalCode code (eval_env st) = Except.error m →
      execute_query code st = QueryResult.errorText ("Error executing query: " ++ m) := by
  constructor
  · cases h : evalCode code (eval_env st) with
    | ok v => exact Or.inl ⟨v, by simp [execute_query, h]⟩
    | error m => exact Or.inr ⟨m, by simp [execute_query, h]⟩
  · intro m hm
    simp [execute_query, hm]

theorem execute_query_catches_all_witness :
    execute_query (PyCode.invalid "invalid syntax") initState
      = QueryResult.errorText ("Error executing query: " ++ "invalid syntax") :=
  (execute_query_catches_all (PyCode.invalid "invalid syntax") initState).2
    "invalid syntax" rfl

/-- Claim C2 as stated fails on the code: on the completion whose
stripped text starts with a fence line but whose last line does not end
with one, the spec-level stripping returns the text unchanged while
query_data_with_ai still removes the first and last line, returning the
empty string here. -/
theorem translate_strip_spec_counterexample :
    query_data_with_ai (Except.ok "```\nx") = "" ∧
      stripFencesSpec "```\nx" = "```\nx" ∧
      ("" : String) ≠ "```\nx" :=
  ⟨by decide, by decide, by decide⟩

/-- Claim C2 amended: the returned text is the completion text with
surrounding whitespace stripped; when the stripped text begins with a
triple-backtick marker its first and last lines are removed regardless
of whether a closing fence line is present, and otherwise the stripped
text is returned unchanged. -/
theorem translate_strip_amended (content : String) :
    (pyStartsWith (pyStrip content) "```" = true →
      query_data_with_ai (Except.ok content)
        = pyJoin "\n" (((pySplitNl (pyStrip content)).drop 1).dropLast)) ∧
    (pyStartsWith (pyStrip content) "```" = false →
      query_data_with_ai (Except.ok content) = pyStrip content) := by
  constructor <;> intro h <;> simp [query_data_with_ai, h]

theorem translate_strip_amended_witness :
    query_data_with_ai (Except.ok "```python\nlen(df)\n```") = "len(df)" ∧
      query_data_with_ai (Except.ok " df.shape ") = "df.shape" :=
  ⟨((translate_strip_amended "```python\nlen(df)\n```").1 (by decide)).trans (by decide),
    ((translate_strip_amended " df.shape ").2 (by decide)).trans (by decide)⟩

/-- Claim C3: on a loaded dataset, the well-formed read expression
df.shape[0] computing the row count evaluates in the restricted
namespace to the numeric row count of the dataset, and every expression
whose evaluation in that namespace yields the row count is returned by
the executor as that numeric value, not as an error text. -/
theorem execute_row_count (st : BotState) (d : Dataset) (h : st.df = some d) :
    execute_query (PyCode.expr rowCountExpr) st = QueryResult.value (PyVal.int d.numRows) ∧
    ∀ e : Expr, evalExpr e (eval_env st) = Except.ok (PyVal.int d.numRows) →
      execute_query (PyCode.expr e) st = QueryResult.value (PyVal.int d.numRows) := by
  constructor
  · unfold execute_query evalCode eval_env safe_dict eval_globals
    rw [h]
    rfl
  · intro e he
    simp [execute_query, evalCode, he]

theorem execute_row_count_witness :
    execute_query (PyCode.expr rowCountExpr) loadedState = QueryResult.value (PyVal.int 5) :=
  ((execute_row_count loadedState sampleData rfl).1).trans (by decide)

/-- Claim C4: when the read raises (nonexistent or unreadable source, or
missing sheet), load_data returns False and the state is returned
unchanged: the stored dataset and the stored file path keep the values
they had before the failed load. -/
theorem load_error_preserves_state (fs : ReadExcel) (file_path : String)
    (sheet_name : Option String) (st : BotState) (e : String)
    (h : readResult fs file_path sheet_name = Except.error e) :
    load_data fs file_path sheet_name st = (false, st) := by
  unfold load_data
  rw [h]

theorem load_error_preserves_state_witness :
    load_data missingFile "missing.xlsx" Option.none loadedState = (false, loadedState) :=
  load_error_preserves_state missingFile "missing.xlsx" Option.none loadedState
    "No such file or directory" rfl

/-- Claim C5: on a loaded dataset the summary text is exactly the
template whose reported row count is the number of rows, whose reported
column count is the number of columns, and which lists the column
names; moreover the reported counts are exact in that any loaded
dataset producing the same summary text has the same row count and
the same column count. -/
theorem summary_exact_counts (st : BotState) (d : Dataset) (h : st.df = some d) :
    get_data_summary st = summaryTemplate d.numRows d.numCols d.columns (headToString d) ∧
    ∀ (st2 : BotState) (d2 : Dataset), st2.df = some d2 →
      get_data_summary st2 = get_data_summary st →
      d2.numRows = d.numRows ∧ d2.numCols = d.numCols := by
  have main : ∀ (s : BotState) (dd : Dataset), s.df = some dd →
      get_data_summary s = summaryTemplate dd.numRows dd.numCols dd.columns (headToString dd) := by
    intro s dd hs
    unfold get_data_summary summaryTemplate
    rw [hs]
  refine ⟨main st d h, ?_⟩
  intro st2 d2 h2 heq
  exact summaryTemplate_counts_inj ((main st2 d2 h2).symm.trans (heq.trans (main st d h)))

set_option maxRecDepth 4000 in
theorem summary_exact_counts_witness :
    get_data_summary loadedState
      = summaryTemplate sampleData.numRows sampleData.numCols sampleData.columns
          (headToString sampleData)
      ∧ sampleData.numRows = 5 ∧ sampleData.numCols = 3 :=
  ⟨(summary_exact_counts loadedState sampleData rfl).1, by decide, by decide⟩

/-- Claim C6 as stated fails on the code: the globals dict handed to
eval binds the builtins-table name to an empty dict, and Python name
resolution falls through the locals dict to the globals dict, so the
expression consisting of that name alone is not df and not pd and still
evaluates to a value (the empty dict), not to an error text. -/
theorem restricted_eval_spec_counterexample :
    ("__builtins__" : String) ≠ "df" ∧ ("__builtins__" : String) ≠ "pd" ∧
      execute_query (PyCode.expr (Expr.name "__builtins__")) loadedState
        = QueryResult.value PyVal.emptyDict :=
  ⟨by decide, by decide, by decide⟩

/-- Claim C6 amended: the executor resolves names through exactly the
two locals bindings df and pd plus the one globals binding of the
builtins-table name to an empty dict (which is what removes every
ambient built-in function); that third name evaluates to the empty
dict, and every expression mentioning any free name other than these
three (a built-in such as len included) fails to resolve it and is
answered with an error text. -/
theorem restricted_eval_bindings (st : BotState) :
    (eval_env st).map Prod.fst = ["df", "pd", "__builtins__"] ∧
    execute_query (PyCode.expr (Expr.name "__builtins__")) st
      = QueryResult.value PyVal.emptyDict ∧
    ∀ (e : Expr) (s : String), s ∈ e.freeNames →
      s ≠ "df" → s ≠ "pd" → s ≠ "__builtins__" →
      ∃ m, execute_query (PyCode.expr e) st
        = QueryResult.errorText ("Error executing query: " ++ m) := by
  refine ⟨rfl, rfl, ?_⟩
  intro e s hmem h1 h2 h3
  have hun : lookupName (eval_env st) s = Option.none := by
    simp [eval_env, safe_dict, eval_globals, lookupName,
      Ne.symm h1, Ne.symm h2, Ne.symm h3]
  obtain ⟨m, hm⟩ := evalExpr_error_of_unbound e (eval_env st) s hmem hun
  exact ⟨m, by simp [execute_query, evalCode, hm]⟩

theorem restricted_eval_bindings_witness :
    ∃ m, execute_query (PyCode.expr (Expr.call (Expr.name "len") (Expr.name "df"))) loadedState
      = QueryResult.errorText ("Error executing query: " ++ m) :=
  (restricted_eval_bindings loadedState).2.2
    (Expr.call (Expr.name "len") (Expr.name "df")) "len"
    (by decide) (by decide) (by decide) (by decide)

/-- Claim C7: every transport or service exception raised by the
completion call is caught and converted to the human-readable text
"Error generating query: " followed by the exception text; the
translator returns that text instead of re-raising. -/
theorem translate_service_error_caught (e : String) :
    query_data_with_ai (Except.error e) = "Error generating query: " ++ e := rfl

/-- Claim C8: whenever no dataset is loaded, the summary is the fixed
sentinel text rather than a dataset description. -/
theorem summary_no_data_sentinel (st : BotState) (h : st.df = Option.none) :
    get_data_summary st = "No data loaded" := by
  unfold get_data_summary
  rw [h]

theorem summary_no_data_sentinel_witness :
    get_data_summary initState = "No data loaded" :=
  summary_no_data_sentinel initState rfl

/-- Claim C9: the summary is a pure, deterministic read of the stored
dataset: it depends on the state only through the stored dataset, so
two calls with no intervening load (which leave that dataset untouched)
return identical text. -/
theorem summary_idempotent (st st2 : BotState) (h : st2.df = st.df) :
    get_data_summary st2 = get_data_summary st := by
  unfold get_data_summary
  rw [h]

theorem summary_idempotent_witness :
    get_data_summary { df := some sampleData, excel_file_path := Option.none }
      = get_data_summary loadedState :=
  summary_idempotent loadedState { df := some sampleData, excel_file_path := Option.none } rfl

/-- Claim C10: when the stripped completion is a single line (it holds
no newline) that begins with a triple-backtick marker, removing the
first and the last line leaves nothing, and the translator returns the
empty string. -/
theorem translate_single_fence_line_empty (content : String)
    (h1 : ∀ c ∈ (pyStrip content).data, c ≠ '\n')
    (h2 : pyStartsWith (pyStrip content) "```" = true) :
    query_data_with_ai (Except.ok content) = "" := by
  have hs : splitNl (pyStrip content).data = [(pyStrip content).data] :=
    splitNl_of_no_newline _ h1
  simp [query_data_with_ai, h2, pySplitNl, hs, pyJoin]

theorem translate_single_fence_line_empty_witness :
    query_data_with_ai (Except.ok "```len(df)") = "" :=
  translate_single_fence_line_empty "```len(df)" (by decide) (by decide)
